import Mathlib

set_option maxHeartbeats 1000000

/-
Verification development for the presentation-generator backend
(ppt_flask.py and modules/pptfinal.py).  The Python source is embedded
shallowly: dict-shaped records become structures, in-place list mutation
becomes explicit state passing, and the two outbound network calls (the
LLM chat completion and the stock-image fetch) become oracle parameters
describing every outcome the code distinguishes.
-/

/- ===== modules/pptfinal.py : content generator ===== -/

/-- A basic slide record as produced by the content generator: a Python dict
with keys title, content (a list of strings) and description. -/
structure SlideRecord where
  title : String
  content : List String
  description : String
deriving DecidableEq, Repr

/-- A generic Python/JSON value; used for whatever json.loads returns for the
model response text. -/
inductive PyObj where
  | str (s : String)
  | int (n : Int)
  | list (xs : List PyObj)
  | dict (fields : List (String × PyObj))

/-- Dictionary field access, as Python dict lookup. -/
def PyObj.getField (o : PyObj) (k : String) : Option PyObj :=
  match o with
  | .dict fields => fields.lookup k
  | _ => none

/-- The dict a SlideRecord denotes (key order as written in the source). -/
def SlideRecord.toObj (r : SlideRecord) : PyObj :=
  .dict [("title", .str r.title),
         ("content", .list (r.content.map .str)),
         ("description", .str r.description)]

/-- Outcome of json.loads applied to the extracted message content:
either a json.JSONDecodeError or a parsed value. -/
inductive ContentParse where
  | parseError
  | parsed (v : PyObj)

/-- Outcome of the outbound chat-completion HTTP call in generate_ai_content:
either something in the try block raised (requests error, bad response
shape, ...), or a response came back with the given status code whose
extracted message content parses as described. -/
inductive Upstream where
  | exn
  | resp (status : Nat) (content : ContentParse)

/-- Python truthiness of the api_key argument: None and the empty string are
falsy, every other string is truthy. -/
def keyTruthy : Option String → Bool
  | none => false
  | some s => s != ""

/-- modules/pptfinal.py, create_fallback_slides: the slide built for loop
index i, which ranges over range(1, min(num_slides, 6)) in the source. -/
def fallbackMiddleSlide (topic : String) (i : Nat) : SlideRecord :=
  if i = 1 then
    { title := "Key Concepts of " ++ topic,
      content := ["Understanding the fundamental principles",
                  "Exploring core methodologies and approaches",
                  "Identifying important trends and developments"],
      description := "Core concepts and principles" }
  else if i = 2 then
    { title := "Applications and Use Cases",
      content := ["Real-world applications and implementations",
                  "Industry-specific use cases and examples",
                  "Practical benefits and advantages"],
      description := "Practical applications and examples" }
  else if i = 3 then
    { title := "Challenges and Considerations",
      content := ["Common challenges and obstacles",
                  "Important considerations and limitations",
                  "Risk factors and mitigation strategies"],
      description := "Challenges and considerations" }
  else if i = 4 then
    { title := "Future Trends and Opportunities",
      content := ["Emerging trends and developments",
                  "Future opportunities and potential",
                  "Recommendations for next steps"],
      description := "Future outlook and opportunities" }
  else
    { title := "Additional Insights on " ++ topic,
      content := ["Further exploration of key aspects",
                  "Additional perspectives and viewpoints",
                  "Supporting evidence and data"],
      description := "Additional insights and information" }

/-- modules/pptfinal.py, create_fallback_slides: an introduction slide, then
one slide per loop index in range(1, min(num_slides, 6)), then a summary
slide.  (The ai_content argument of the source function is never read, so it
is not a parameter here.) -/
def create_fallback_slides (topic : String) (num_slides : Nat) : List SlideRecord :=
  [{ title := "Introduction to " ++ topic,
     content := ["Welcome to our presentation on " ++ topic,
                 "This presentation will cover key aspects and insights",
                 "Let's explore this fascinating topic together"],
     description := "Introduction and overview" }]
  ++ (List.range' 1 (min num_slides 6 - 1)).map (fallbackMiddleSlide topic)
  ++ [{ title := "Summary and Conclusion",
        content := ["Key takeaways from our discussion of " ++ topic,
                    "Important points to remember",
                    "Thank you for your attention"],
        description := "Summary and conclusion" }]

/-- modules/pptfinal.py, generate_ai_content.  Returns None when the key is
falsy; otherwise, on a 200 response whose content parses to a non-empty JSON
list it returns that list, and in every other case (exception, non-200
status, JSON decode error, non-list JSON, empty list) it returns the
fallback slides. -/
def generate_ai_content (topic : String) (num_slides : Nat) (api_key : Option String)
    (upstream : Upstream) : Option (List PyObj) :=
  if keyTruthy api_key = false then none
  else
    match upstream with
    | .exn => some ((create_fallback_slides topic num_slides).map SlideRecord.toObj)
    | .resp status content =>
      if status = 200 then
        match content with
        | .parsed (.list xs) =>
          if 0 < xs.length then some xs
          else some ((create_fallback_slides topic num_slides).map SlideRecord.toObj)
        | .parsed _ => some ((create_fallback_slides topic num_slides).map SlideRecord.toObj)
        | .parseError => some ((create_fallback_slides topic num_slides).map SlideRecord.toObj)
      else some ((create_fallback_slides topic num_slides).map SlideRecord.toObj)

/- ===== ppt_flask.py : the rich JSON slide model and the edit applier ===== -/

/-- A position dict with left/top/width/height in inches.  The source stores
Python floats; all positions written by this code are exact decimals, so
they are modelled as rationals. -/
structure Pos where
  left : ℚ
  top : ℚ
  width : ℚ
  height : ℚ
deriving DecidableEq, Repr

/-- One element dict of a rich slide.  The source uses plain dicts whose keys
depend on the element kind: text/title elements carry content, bullet lists
carry items, images carry src.  An absent key reads as None through
element.get, hence the Option fields.  (The style sub-dict is not modelled:
no operation in this development reads or writes it.) -/
structure Element where
  typ : String
  content : Option String := none
  items : Option (List String) := none
  position : Pos
  src : Option String := none
deriving DecidableEq, Repr

/-- A rich slide dict as produced by extract_ppt_to_json and edited by
slide_operations.  The background dict always has type "color" in this code,
so only the color string is kept. -/
structure RichSlide where
  id : String
  slide_number : Int
  layout_type : String
  background : String
  elements : List Element
deriving DecidableEq, Repr

def dummyElem : Element :=
  { typ := "", content := none, items := none, position := ⟨0, 0, 0, 0⟩, src := none }

def dummyRich : RichSlide :=
  { id := "", slide_number := 0, layout_type := "", background := "", elements := [] }

/-- Python truthiness of element.get applied to a string field. -/
def strTruthy : Option String → Bool
  | none => false
  | some s => s != ""

/-- Python truthiness of element.get applied to a list field. -/
def listTruthy : Option (List String) → Bool
  | none => false
  | some xs => !xs.isEmpty

/-- ppt_flask.py, slide_operations, copy branch: the in-place update applied
to one element dict of the copied slide (append " (Copy)" to a truthy
text/title content, or to every item of a truthy bullet list). -/
def markElement (e : Element) : Element :=
  if (e.typ = "title" ∨ e.typ = "text") ∧ strTruthy e.content = true then
    { e with content := e.content.map (fun c => c ++ " (Copy)") }
  else if e.typ = "bullet_list" ∧ listTruthy e.items = true then
    { e with items := e.items.map (fun l => l.map (fun s => s ++ " (Copy)")) }
  else e

def markCopy (es : List Element) : List Element := es.map markElement

/-- ppt_flask.py, slide_operations: the renumbering loop
for i, slide in enumerate(slides): slide.slide_number = i + 1,
started at loop counter k. -/
def renumberFrom (k : Int) : List RichSlide → List RichSlide
  | [] => []
  | s :: ss => { s with slide_number := k + 1 } :: renumberFrom (k + 1) ss

def renumber (ss : List RichSlide) : List RichSlide := renumberFrom 0 ss

/-- Result of the copy/delete core of the slide_operations handler: either a
mutated slides array with a success message, or an error response status and
message. -/
inductive OpOutcome where
  | ok (slides : List RichSlide) (message : String)
  | err (status : Nat) (message : String)
deriving DecidableEq, Repr

def OpOutcome.slides? : OpOutcome → Option (List RichSlide)
  | .ok ss _ => some ss
  | .err _ _ => none

def OpOutcome.errStatus? : OpOutcome → Option Nat
  | .ok _ _ => none
  | .err c _ => some c

/-- ppt_flask.py, slide_operations, lines 796-850: bounds check, then the
copy or delete branch, then renumbering.

Faithfulness note on the copy branch: in the source,
new_slide = dict-unpack of slide_to_copy is a shallow copy, so
new_slide["elements"] is the very list (of the very element dicts) of the
source slide; the in-place " (Copy)" marking loop therefore rewrites the
source slide's elements as well.  Hence both the slide left at slide_index
and the clone inserted at slide_index + 1 end up with the marked elements;
they differ only in id (the clone gets the fresh one) and, after
renumbering, in slide_number. -/
def applySlideOp (op : String) (slide_index : Int) (newId : String)
    (slides : List RichSlide) : OpOutcome :=
  if slide_index < 0 ∨ (slides.length : Int) ≤ slide_index then
    .err 400 "Invalid slide index"
  else
    let i : Nat := slide_index.toNat
    if op = "copy" then
      let src := slides.getD i dummyRich
      let marked := markCopy src.elements
      let srcAfter := { src with elements := marked }
      let newSlide := { src with id := newId,
                                 slide_number := (slides.length : Int) + 1,
                                 elements := marked }
      .ok (renumber (slides.take i ++ srcAfter :: newSlide :: slides.drop (i + 1)))
        "Slide copied successfully"
    else if op = "delete" then
      if slides.length ≤ 1 then
        .err 400 "Cannot delete slide. Presentation must have at least one slide."
      else
        .ok (renumber (slides.eraseIdx i)) "Slide deleted successfully"
    else
      .err 400 "Invalid operation. Use copy or delete"

/-- The mutable state touched by the slide_operations handler for one
presentation: the in-memory slides array and updated_at field, and the
snapshot last written to the presentation's JSON file on disk. -/
structure PresState where
  slides : List RichSlide
  updatedAt : Option String
  savedSlides : List RichSlide
  savedUpdatedAt : Option String
deriving DecidableEq, Repr

/-- ppt_flask.py, slide_operations, lines 796-887 (after the presentation
has been loaded and its json_data found): run the operation; on success set
updated_at and write the JSON file (writeOk models whether that write
raises), answering 200, or 500 with the memory already mutated but the file
untouched; on an operation error answer it with the state untouched.
The best-effort S3 mirror never changes the response or the local state. -/
def slideOperationsEndpoint (op : String) (idx : Int) (newId now : String)
    (writeOk : Bool) (st : PresState) : (Nat × String) × PresState :=
  match applySlideOp op idx newId st.slides with
  | .err code m => ((code, m), st)
  | .ok slides2 m =>
    let st1 : PresState := { st with slides := slides2, updatedAt := some now }
    if writeOk then
      ((200, m), { st1 with savedSlides := slides2, savedUpdatedAt := some now })
    else
      ((500, "Failed to save changes"), st1)

/- ===== ppt_flask.py : extract_ppt_to_json (document parser) ===== -/

/-- An abstract python-pptx shape, as the parser reads it.  text is the
shape's full text (paragraphs joined by newlines, the empty string for a
fresh autoshape text frame); paragraphs lists the paragraph texts; pictures
(which have no text attribute) are flagged, and imageData is the data URI
that extract_image_from_shape would produce for the picture's blob (None
when that extraction fails). -/
structure Shape where
  isPicture : Bool
  text : String
  paragraphs : List String
  left : ℚ
  top : ℚ
  width : ℚ
  height : ℚ
  imageData : Option String
deriving DecidableEq, Repr

/-- One visual slide of a pptx document: its background fill color when one
can be read (get_slide_background_color falls back to "#ffffff" otherwise)
and its shapes in document order. -/
structure PSlide where
  bgColor : Option String := none
  shapes : List Shape
deriving DecidableEq, Repr

/-- Python str.strip with no arguments: drop whitespace from both ends.
(Stated on the character list so that it computes by structural recursion;
String.trim itself is defined by well-founded recursion on byte positions
and does not reduce in the kernel.) -/
def pyStrip (s : String) : String :=
  ((s.toList.dropWhile Char.isWhitespace).reverse.dropWhile Char.isWhitespace).reverse.asString

/-- Split a string at a separator character, as the single-character
str.split / the paragraph splitting python-pptx applies to an assigned
multi-line string.  Always returns at least one (possibly empty) piece. -/
def splitOnChar (c : Char) : List Char → List (List Char)
  | [] => [[]]
  | x :: xs =>
    let r := splitOnChar c xs
    if x = c then [] :: r
    else
      match r with
      | [] => [[x]]
      | y :: ys => (x :: y) :: ys

def splitLines (s : String) : List String :=
  (splitOnChar (Char.ofNat 10) s.toList).map List.asString

/-- The bullet-marker test applied to a stripped paragraph text:
text.startswith of any of the three one-character markers, i.e. the first
character is a bullet, dash or star. -/
def bulletMarker (t : String) : Bool :=
  match t.toList with
  | [] => false
  | c :: _ => c = '•' || c = '-' || c = '*'


/-- Python text.lstrip of the four characters bullet, dash, star, space. -/
def stripBullet (t : String) : String :=
  (t.toList.dropWhile (fun c => c = '•' ∨ c = '-' ∨ c = '*' ∨ c = ' ')).asString

/-- The bullet-detection loop of extract_ppt_to_json over the paragraphs of
one shape, carrying the is_bullet_list flag and the bullet_items
accumulator: a stripped non-empty paragraph starting with a marker sets the
flag and appends its marker-stripped text; a later non-marker paragraph is
appended raw once the flag is set; paragraphs before the first marker are
dropped. -/
def bulletScanAux : List String → Bool → List String → Bool × List String
  | [], isB, items => (isB, items)
  | p :: ps, isB, items =>
    let t := pyStrip p
    if t = "" then bulletScanAux ps isB items
    else if bulletMarker t then bulletScanAux ps true (items ++ [stripBullet t])
    else if isB then bulletScanAux ps isB (items ++ [t])
    else bulletScanAux ps isB items

def bulletScan (paras : List String) : Bool × List String :=
  bulletScanAux paras false []

/-- extract_ppt_to_json, per-shape element extraction for slide slide_idx:
a shape with a text attribute and non-blank text becomes a bullet_list
element when the scan found bullets, else a title element when it sits above
the threshold (3 inches on slide 0, 2 inches later) and a text element
otherwise; a picture shape becomes an image element when its data can be
extracted; every other shape contributes nothing. -/
def shapeElements (slideIdx : Nat) (sh : Shape) : List Element :=
  let pos : Pos := ⟨sh.left, sh.top, sh.width, sh.height⟩
  if sh.isPicture = false ∧ pyStrip sh.text ≠ "" then
    let scan := bulletScan sh.paragraphs
    if scan.1 = true ∧ scan.2 ≠ [] then
      [{ typ := "bullet_list", items := some scan.2, position := pos }]
    else
      let t := if (slideIdx = 0 ∧ sh.top < 3) ∨ (0 < slideIdx ∧ sh.top < 2)
               then "title" else "text"
      [{ typ := t, content := some (pyStrip sh.text), position := pos }]
  else if sh.isPicture = true then
    match sh.imageData with
    | some d => [{ typ := "image", src := some d, position := pos }]
    | none => []
  else []

/-- extract_ppt_to_json, per-slide conversion at enumerate index idx. -/
def richOf (idx : Nat) (s : PSlide) : RichSlide :=
  { id := "slide_" ++ toString idx,
    slide_number := (idx : Int) + 1,
    layout_type := if idx = 0 then "title" else "content",
    background := s.bgColor.getD "#ffffff",
    elements := (s.shapes.map (shapeElements idx)).flatten }

/-- The slide loop of extract_ppt_to_json, carried at enumerate index k. -/
def extractFrom (k : Nat) : List PSlide → List RichSlide
  | [] => []
  | s :: ss => richOf k s :: extractFrom (k + 1) ss

/-- ppt_flask.py, extract_ppt_to_json: the slides array of the JSON model
read back from a pptx document.  (The surrounding metadata dict and the
top-level try that turns a library exception into None are outside the
model; no claim touches them.) -/
def extract_ppt_to_json (doc : List PSlide) : List RichSlide :=
  extractFrom 0 doc

/-- The first non-image element of a parsed slide. -/
def firstTextElement (s : RichSlide) : Option Element :=
  s.elements.find? (fun e => e.typ != "image")

/- ===== modules/pptfinal.py : create_powerpoint (document renderer) ===== -/

/-- A rectangle autoshape as added by slide.shapes.add_shape: its fresh text
frame holds one empty paragraph, so its text reads back empty. -/
def autoShapeR (l t w h : ℚ) : Shape :=
  { isPicture := false, text := "", paragraphs := [""],
    left := l, top := t, width := w, height := h, imageData := none }

/-- A textbox whose text frame was assigned one string (frame.text = s);
python-pptx splits the assigned string into one paragraph per line and joins
the paragraphs back with newlines when the text is read. -/
def textBoxRaw (l t w h : ℚ) (s : String) : Shape :=
  { isPicture := false, text := s, paragraphs := splitLines s,
    left := l, top := t, width := w, height := h, imageData := none }

/-- A textbox whose frame was cleared and then filled paragraph by paragraph
(clear leaves a single empty paragraph when the fill loop adds none). -/
def textBoxParas (l t w h : ℚ) (ps : List String) : Shape :=
  { isPicture := false, text := String.intercalate "\n" ps, paragraphs := ps,
    left := l, top := t, width := w, height := h, imageData := none }

/-- A picture added by slide.shapes.add_picture; d is the data URI the
parser's extract_image_from_shape will recover from its blob. -/
def pictureShape (l t w h : ℚ) (d : Option String) : Shape :=
  { isPicture := true, text := "", paragraphs := [],
    left := l, top := t, width := w, height := h, imageData := d }

/-- create_powerpoint: the content paragraphs of a content slide, one bullet
line per content point (capped at four); an empty cap leaves the cleared
frame's single empty paragraph. -/
def contentParas (pts : List String) : List String :=
  match pts.take 4 with
  | [] => [""]
  | l => l.map (fun p => "• " ++ p)

/-- create_powerpoint: the opening title slide (three decorative rectangles,
the upper-cased topic at 2.5 inches, a subtitle, an accent line). -/
def titleSlideP (topic monthYear : String) : PSlide :=
  { bgColor := none,
    shapes := [autoShapeR 0 0 13.33 7.5,
               autoShapeR 0 0 4 7.5,
               autoShapeR 3.5 0 1 7.5,
               textBoxRaw 4.8 2.5 8 2 topic.toUpper,
               textBoxRaw 4.8 4.8 8 1 ("Professional Presentation • " ++ monthYear),
               autoShapeR 4.8 4.3 3 0.08] }

/-- create_powerpoint: one content slide for a slide record: background,
card and header rectangles, the title textbox at 0.6 inches, an optional
stock picture, then the bullet content textbox at 1.8 inches.  pic is none
when no image was assigned to this slide (no Unsplash key, short result
list, missing file, placeholder); some d means a picture whose blob the
parser will read back as d. -/
def contentSlideShapes (r : SlideRecord) (pic : Option (Option String)) : PSlide :=
  { bgColor := none,
    shapes := [autoShapeR 0 0 13.33 7.5,
               autoShapeR 0.4 0.4 12.53 6.7,
               autoShapeR 0.4 0.4 12.53 1.1,
               textBoxRaw 0.8 0.6 11.73 0.7 r.title]
      ++ (match pic with
          | some d => [pictureShape 8 1.8 4.5 3.4 d]
          | none => [])
      ++ [textBoxParas 0.9 1.8 6.8 4.5 (contentParas r.content)] }

/-- modules/pptfinal.py, create_thank_you_slide: the fixed closing slide. -/
def thankYouSlideP (topic : String) : PSlide :=
  { bgColor := none,
    shapes := [autoShapeR 0 0 13.33 7.5,
               autoShapeR 0 0 4 7.5,
               autoShapeR 3.5 0 1 7.5,
               textBoxRaw 4.8 2.5 8 1.5 "THANK YOU",
               textBoxRaw 4.8 4.2 8 1 "Questions & Discussion",
               textBoxRaw 4.8 5.5 8 0.8 ("Presentation on: " ++ topic),
               autoShapeR 4.8 4 3 0.08] }

/-- The content-slide loop of create_powerpoint, consuming the per-slide
image assignment positionally. -/
def contentSlidesFrom : List SlideRecord → List (Option (Option String)) → List PSlide
  | [], _ => []
  | r :: rs, ps => contentSlideShapes r (ps.headD none) :: contentSlidesFrom rs ps.tail

/-- modules/pptfinal.py, create_powerpoint: a title slide, one content slide
per slide record, and the fixed thank-you slide.  monthYear stands for
datetime.now month-year text on the title slide; pics is the oracle for the
Unsplash image fetch (one entry per slide record, as all_images). -/
def create_powerpoint (slides_data : List SlideRecord) (topic monthYear : String)
    (pics : List (Option (Option String))) : List PSlide :=
  titleSlideP topic monthYear :: (contentSlidesFrom slides_data pics ++ [thankYouSlideP topic])

/- ===== ppt_flask.py : presentation lookup, endpoints, rate limiter ===== -/

/-- A stored presentation record, as the endpoints read it.  jsonData is
some slides exactly when the record has a truthy json_data entry (its
slides array); pptPath is the record's ppt_path when present. -/
structure Pres where
  topic : String
  jsonData : Option (List RichSlide) := none
  pptPath : Option String := none

/-- Server-side storage as the endpoints see it: the in-memory
presentations_db map, the per-id JSON files in the presentations folder, the
ids having a structure JSON file in the JSON folder, the pptx files on disk,
and an oracle for whether extract_ppt_to_json succeeds on a given path. -/
structure Server where
  db : List (String × Pres)
  presFiles : List (String × Pres)
  structFiles : List String
  pptOnDisk : List String
  extractOk : String → Bool

/-- The shared load block of update_slide, export_ppt and slide_operations:
use the in-memory entry when present, else read the id's JSON file from the
presentations folder, else the caller answers 404. -/
def loadPresentation (srv : Server) (id : String) : Option Pres :=
  match srv.db.lookup id with
  | some p => some p
  | none => srv.presFiles.lookup id

/-- ppt_flask.py, get_presentation_json: in-memory json_data first, then the
structure file, then extraction from the stored ppt_path; 404 when all three
fall through. -/
def getPresentationJsonStatus (srv : Server) (id : String) : Nat :=
  let fromMemory := match srv.db.lookup id with
                    | some p => p.jsonData.isSome
                    | none => false
  if fromMemory then 200
  else if id ∈ srv.structFiles then 200
  else match srv.presFiles.lookup id with
       | some p =>
         match p.pptPath with
         | some path => if path ∈ srv.pptOnDisk ∧ srv.extractOk path then 200 else 404
         | none => 404
       | none => 404

/-- ppt_flask.py, update_slide, with the three payload fields present: 404
when the presentation cannot be loaded, 500 when the JSON file write raises,
200 otherwise. -/
def updateSlideStatus (srv : Server) (id : String) (writeOk : Bool) : Nat :=
  match loadPresentation srv id with
  | none => 404
  | some _ => if writeOk then 200 else 500

/-- ppt_flask.py, export_ppt, with presentationId present: 404 when the
presentation cannot be loaded; for pptx, stream the stored file or 404 when
it is missing; for pdf, build and stream the PDF; 400 on any other format. -/
def exportPptStatus (srv : Server) (id : String) (format : String) : Nat :=
  match loadPresentation srv id with
  | none => 404
  | some p =>
    if format = "pptx" then
      match p.pptPath with
      | some path => if path ∈ srv.pptOnDisk then 200 else 404
      | none => 404
    else if format = "pdf" then 200
    else 400

/-- ppt_flask.py, slide_operations: the full handler status, from the
missing-field check through load, json_data check and the operation. -/
def slideOperationsStatus (srv : Server) (id : String) (op : String) (idx : Int)
    (newId now : String) (writeOk : Bool) : Nat :=
  if op = "" then 400
  else match loadPresentation srv id with
  | none => 404
  | some p =>
    match p.jsonData with
    | none => 404
    | some slides =>
      ((slideOperationsEndpoint op idx newId now writeOk
          { slides := slides, updatedAt := none,
            savedSlides := slides, savedUpdatedAt := none }).1).1

/-- ppt_flask.py, delete_presentation: drop the id from memory, best-effort
delete the S3 objects and the two local JSON files, and answer success —
there is no not-found branch, so the status is 200 whether or not the id
exists anywhere. -/
def deletePresentationResult (srv : Server) (id : String) : Nat × Server :=
  (200, { srv with
    db := srv.db.filter (fun kv => kv.1 != id),
    presFiles := srv.presFiles.filter (fun kv => kv.1 != id),
    structFiles := srv.structFiles.filter (fun k => k != id) })

/-- ppt_flask.py, rate_limit_check: prune the client's recorded request
times to those strictly younger than 60 seconds, refuse when 30 or more
remain, otherwise record now and admit.  Returns the verdict and the
client's new recorded history. -/
def rate_limit_check (history : List ℚ) (now : ℚ) : Bool × List ℚ :=
  let recent := history.filter (fun t => decide (now - t < 60))
  if 30 ≤ recent.length then (false, recent)
  else (true, recent ++ [now])

/- ===== concrete instances used by the theorems below ===== -/

def dummySlideRecord : SlideRecord := { title := "", content := [], description := "" }

def demoPos : Pos := ⟨1, 1, 4, 1⟩

/-- A one-slide deck whose only slide has a single title element "Hello". -/
def demoDeckSlide : RichSlide :=
  { id := "slide_0", slide_number := 1, layout_type := "content",
    background := "#ffffff",
    elements := [{ typ := "title", content := some "Hello", position := demoPos }] }

def emptyServer : Server :=
  { db := [], presFiles := [], structFiles := [], pptOnDisk := [],
    extractOk := fun _ => false }

/-- A server knowing the ids a1 (in memory), a2 (JSON file) and a3
(structure file) but not the id probed in the theorems. -/
def demoServer : Server :=
  { db := [("a1", { topic := "T" })],
    presFiles := [("a2", { topic := "U" })],
    structFiles := ["a3"], pptOnDisk := [],
    extractOk := fun _ => false }

/-- A shape whose first non-empty line is plain text while a later line
carries a dash marker. -/
def mixedShape : Shape :=
  { isPicture := false, text := "Hello\n- world", paragraphs := ["Hello", "- world"],
    left := 1, top := 5, width := 4, height := 1, imageData := none }

/-- A single-line plain text shape placed 1.5 inches from the top. -/
def plainShape : Shape :=
  { isPicture := false, text := "Agenda", paragraphs := ["Agenda"],
    left := 1, top := 1.5, width := 4, height := 1, imageData := none }

def thirtyStamps : List ℚ := List.replicate 30 0

/-- demoDeckSlide after the copy operation marked its (shared) elements. -/
def demoMarked : RichSlide :=
  { id := "slide_0", slide_number := 1, layout_type := "content",
    background := "#ffffff",
    elements := [{ typ := "title", content := some "Hello (Copy)", position := demoPos }] }

/-- The clone the copy operation inserts after demoDeckSlide. -/
def demoClone : RichSlide :=
  { id := "slide_99_fresh", slide_number := 2, layout_type := "content",
    background := "#ffffff",
    elements := [{ typ := "title", content := some "Hello (Copy)", position := demoPos }] }

/-- A one-slide presentation state for the endpoint theorems. -/
def demoPresState : PresState :=
  { slides := [demoDeckSlide], updatedAt := none,
    savedSlides := [demoDeckSlide], savedUpdatedAt := none }

def dummyPSlide : PSlide := { bgColor := none, shapes := [] }

/-- A slide record with a plain single-line title, for the round-trip witness. -/
def wRecord : SlideRecord :=
  { title := "Alpha", content := ["one", "two"], description := "d" }

/- ===== theorems ===== -/

theorem create_fallback_slides_ne_nil (topic : String) (n : Nat) :
    create_fallback_slides topic n ≠ [] := by
  simp [create_fallback_slides]

/-- C1 (counterexample): a 5-slide request with a configured key whose
upstream call raises yields the fallback deck, and that deck has 6 slides,
not the 5 the claim states. -/
theorem five_slide_fallback_has_six_slides :
    generate_ai_content "Renewable Energy" 5 (some "key") Upstream.exn
        = some ((create_fallback_slides "Renewable Energy" 5).map SlideRecord.toObj) ∧
    (create_fallback_slides "Renewable Energy" 5).length = 6 ∧
    ((create_fallback_slides "Renewable Energy" 5).length = 5) = False := by
  refine ⟨rfl, rfl, eq_false (by decide)⟩

/-- C1 (amended): for every valid topic (non-empty, at most 200 characters)
and slide count 1 ≤ n ≤ 20, with a truthy key, whenever the upstream call
fails (raises or answers non-200) or answers 200 with non-JSON text, content
generation returns the fallback deck: a non-empty list of min(n,6)+1 slides
(6 slides for a 5-slide request), the first titled "Introduction to topic"
and the last titled "Summary and Conclusion". -/
theorem fallback_shape_on_failure (topic : String) (n : Nat) (key : Option String)
    (up : Upstream)
    (htopic : topic ≠ "") (hlen : topic.length ≤ 200)
    (h1 : 1 ≤ n) (h2 : n ≤ 20) (hk : keyTruthy key = true)
    (hup : up = .exn ∨ (∃ st c, up = .resp st c ∧ st ≠ 200) ∨
           up = .resp 200 .parseError) :
    generate_ai_content topic n key up
        = some ((create_fallback_slides topic n).map SlideRecord.toObj) ∧
    (create_fallback_slides topic n).length = min n 6 + 1 ∧
    ((create_fallback_slides topic n).head?.map SlideRecord.title)
        = some ("Introduction to " ++ topic) ∧
    ((create_fallback_slides topic n).getLast?.map SlideRecord.title)
        = some "Summary and Conclusion" := by
  refine ⟨?_, ?_, ?_, ?_⟩
  · rcases hup with h | ⟨st, c, h, hne⟩ | h
    · subst h; simp [generate_ai_content, hk]
    · subst h; simp [generate_ai_content, hk, hne]
    · subst h; simp [generate_ai_content, hk]
  · have : 1 ≤ min n 6 := le_min h1 (by norm_num)
    simp [create_fallback_slides]
    omega
  · simp [create_fallback_slides]
  · rw [create_fallback_slides, List.getLast?_append_of_ne_nil _ (by simp)]
    rfl

/-- C1 (witness for the amended theorem). -/
theorem fallback_shape_on_failure_witness :
    (create_fallback_slides "Renewable Energy" 5).length = min 5 6 + 1 ∧
    ((create_fallback_slides "Renewable Energy" 5).head?.map SlideRecord.title)
        = some ("Introduction to " ++ "Renewable Energy") := by
  have h := fallback_shape_on_failure "Renewable Energy" 5 (some "key") .exn
    (by decide) (by decide) (by decide) (by decide) (by decide) (Or.inl rfl)
  exact ⟨h.2.1, h.2.2.1⟩

/-- C7 (counterexample): with a missing or empty API key — which the claim
quantifies over — generate_ai_content returns None. -/
theorem generate_ai_content_none_without_key :
    generate_ai_content "Renewable Energy" 5 none Upstream.exn = none ∧
    generate_ai_content "Renewable Energy" 5 (some "") Upstream.exn = none :=
  ⟨rfl, rfl⟩

/-- C7 (amended): given a truthy API key, generate_ai_content returns, for
every topic, slide count and upstream outcome, a defined and non-empty slide
list (a model-generated one or the fallback); it never returns None and
never an empty list.  Totality of the embedded function is the no-raise
guarantee at this boundary. -/
theorem generate_ai_content_never_none_with_key (topic : String) (n : Nat)
    (key : Option String) (up : Upstream) (hk : keyTruthy key = true) :
    (generate_ai_content topic n key up).isSome = true ∧
    (generate_ai_content topic n key up).getD [] ≠ [] := by
  have hfb : (create_fallback_slides topic n).map SlideRecord.toObj ≠ [] := by
    simp [create_fallback_slides_ne_nil]
  rcases up with _ | ⟨st, c⟩
  · simp [generate_ai_content, hk, hfb]
  · by_cases hst : st = 200
    · subst hst
      rcases c with _ | v
      · simp [generate_ai_content, hk, hfb]
      · rcases v with s | m | xs | fs
        · simp [generate_ai_content, hk, hfb]
        · simp [generate_ai_content, hk, hfb]
        · by_cases hxs : 0 < xs.length
          · have : xs ≠ [] := List.length_pos.mp hxs
            simp [generate_ai_content, hk, hxs, this]
          · simp [generate_ai_content, hk, hxs, hfb]
        · simp [generate_ai_content, hk, hfb]
    · simp [generate_ai_content, hk, hst, hfb]

/-- C7 (witness for the amended theorem). -/
theorem generate_ai_content_never_none_with_key_witness :
    keyTruthy (some "k") = true ∧
    (generate_ai_content "Solar" 4 (some "k") Upstream.exn).isSome = true :=
  ⟨by decide,
   (generate_ai_content_never_none_with_key "Solar" 4 (some "k") .exn (by decide)).1⟩

/-- C10: the rate limiter admits exactly when fewer than 30 recorded
requests fall within the previous 60 seconds, and a refused request leaves
the recorded history equal to the pruned old history — nothing is appended,
so a refusal neither extends nor refreshes the window. -/
theorem rate_limit_admission (history : List ℚ) (now : ℚ) :
    ((rate_limit_check history now).1 = true ↔
        (history.filter (fun t => decide (now - t < 60))).length < 30) ∧
    ((rate_limit_check history now).1 = false →
        (rate_limit_check history now).2
          = history.filter (fun t => decide (now - t < 60))) := by
  by_cases h : 30 ≤ (history.filter (fun t => decide (now - t < 60))).length
  · constructor
    · simp [rate_limit_check, h]
      try omega
    · intro _
      simp [rate_limit_check, h]
  · constructor
    · simp [rate_limit_check, h]
      try omega
    · intro hfalse
      simp [rate_limit_check, h] at hfalse

theorem getD_of_lt {α : Type} (l : List α) (j : Nat) (d : α) (h : j < l.length) :
    l.getD j d = l[j] := by
  simp [List.getD_eq_getElem?_getD, List.getElem?_eq_getElem h]

theorem renumberFrom_length (k : Int) (l : List RichSlide) :
    (renumberFrom k l).length = l.length := by
  induction l generalizing k with
  | nil => rfl
  | cons s ss ih => simp [renumberFrom, ih]

theorem renumberFrom_get (k : Int) (l : List RichSlide) (j : Nat)
    (h : j < l.length) (h2 : j < (renumberFrom k l).length) :
    (renumberFrom k l)[j] = { l[j] with slide_number := k + j + 1 } := by
  induction l generalizing k j with
  | nil => simp at h
  | cons s ss ih =>
    cases j with
    | zero => simp [renumberFrom]
    | succ j2 =>
      have hj : j2 < ss.length := by simpa using h
      have hj2 : j2 < (renumberFrom (k + 1) ss).length := by
        rw [renumberFrom_length]; exact hj
      simp only [renumberFrom, List.getElem_cons_succ]
      rw [ih (k + 1) j2 hj hj2]
      push_cast
      ring_nf

theorem renumber_getD (l : List RichSlide) (j : Nat) (d : RichSlide)
    (h : j < l.length) :
    (renumber l).getD j d = { l.getD j d with slide_number := (j : Int) + 1 } := by
  have h2 : j < (renumberFrom 0 l).length := by
    rw [renumberFrom_length]; exact h
  unfold renumber
  rw [getD_of_lt _ _ _ h2, getD_of_lt _ _ _ h, renumberFrom_get 0 l j h h2]
  ring_nf

/-- Key action of the copy marking on one element dict, stated as the
claims use it. -/
theorem markElement_spec (e : Element) :
    (markElement e).typ = e.typ ∧
    (markElement e).position = e.position ∧
    (((e.typ = "title" ∨ e.typ = "text") ∧ strTruthy e.content = true) →
       (markElement e).content = e.content.map (fun c => c ++ " (Copy)")) ∧
    ((e.typ = "bullet_list" ∧ listTruthy e.items = true) →
       (markElement e).items = e.items.map (fun l => l.map (fun s => s ++ " (Copy)"))) := by
  unfold markElement
  split_ifs with hA hB
  · refine ⟨rfl, rfl, fun _ => rfl, fun hb => ?_⟩
    rcases hA.1 with h | h
    · exact absurd (h.symm.trans hb.1) (by decide)
    · exact absurd (h.symm.trans hb.1) (by decide)
  · exact ⟨rfl, rfl, fun hc => (hA hc).elim, fun _ => rfl⟩
  · exact ⟨rfl, rfl, fun hc => (hA hc).elim, fun hb => (hB hb).elim⟩

/-- The copy branch of applySlideOp at a valid index, unfolded. -/
theorem applySlideOp_copy_eq (slides : List RichSlide) (idx : Int) (newId : String)
    (h0 : 0 ≤ idx) (h1 : idx < (slides.length : Int)) :
    applySlideOp "copy" idx newId slides =
      .ok (renumber (slides.take idx.toNat
            ++ { slides.getD idx.toNat dummyRich with
                   elements := markCopy (slides.getD idx.toNat dummyRich).elements }
            :: { slides.getD idx.toNat dummyRich with
                   id := newId,
                   slide_number := (slides.length : Int) + 1,
                   elements := markCopy (slides.getD idx.toNat dummyRich).elements }
            :: slides.drop (idx.toNat + 1)))
        "Slide copied successfully" := by
  have hcond : ¬ (idx < 0 ∨ (slides.length : Int) ≤ idx) := by omega
  simp [applySlideOp, hcond]

/-- C2 (code mutates the source slide): copying slide 0 of a one-slide deck
whose element reads "Hello" leaves the pre-existing slide slide_0 itself
reading "Hello (Copy)": the shallow dict copy shares the element dicts, so
the marking loop rewrites the source slide as well as the clone. -/
theorem slide_copy_mutates_source_slide :
    demoDeckSlide.elements.map Element.content = [some "Hello"] ∧
    ((applySlideOp "copy" 0 "slide_1700000000_abcd1234" [demoDeckSlide]).slides?.map
        (fun l => l.map (fun s => (s.id, s.elements.map Element.content))))
      = some [("slide_0", [some "Hello (Copy)"]),
              ("slide_1700000000_abcd1234", [some "Hello (Copy)"])] := by
  exact ⟨rfl, by decide⟩

/-- C3: copying at a valid index with a fresh id grows the deck by exactly
one slide; the slide at position slide_index+1 carries the fresh id (distinct
from every pre-existing id) and, element for element, the source slide's
elements with " (Copy)" appended to every truthy title/text content and to
every item of every truthy bullet list; and afterwards every slide's
slide_number is its 1-based array position. -/
theorem copy_inserts_marked_clone (slides : List RichSlide) (idx : Int)
    (newId : String) (slides2 : List RichSlide) (msg : String)
    (h0 : 0 ≤ idx) (h1 : idx < (slides.length : Int))
    (hfresh : newId ∉ slides.map RichSlide.id)
    (heq : applySlideOp "copy" idx newId slides = .ok slides2 msg) :
    slides2.length = slides.length + 1 ∧
    (slides2.getD (idx.toNat + 1) dummyRich).id = newId ∧
    (∀ s ∈ slides, (slides2.getD (idx.toNat + 1) dummyRich).id ≠ s.id) ∧
    (slides2.getD (idx.toNat + 1) dummyRich).elements.length
        = (slides.getD idx.toNat dummyRich).elements.length ∧
    (∀ j, j < (slides.getD idx.toNat dummyRich).elements.length →
       (let e := (slides.getD idx.toNat dummyRich).elements.getD j dummyElem
        let e2 := (slides2.getD (idx.toNat + 1) dummyRich).elements.getD j dummyElem
        e2.typ = e.typ ∧ e2.position = e.position ∧
        (((e.typ = "title" ∨ e.typ = "text") ∧ strTruthy e.content = true) →
           e2.content = e.content.map (fun c => c ++ " (Copy)")) ∧
        ((e.typ = "bullet_list" ∧ listTruthy e.items = true) →
           e2.items = e.items.map (fun l => l.map (fun s => s ++ " (Copy)"))))) ∧
    (∀ j, j < slides2.length → (slides2.getD j dummyRich).slide_number = (j : Int) + 1) := by
  rw [applySlideOp_copy_eq slides idx newId h0 h1] at heq
  have hs2 : slides2 = renumber (slides.take idx.toNat
      ++ { slides.getD idx.toNat dummyRich with
             elements := markCopy (slides.getD idx.toNat dummyRich).elements }
      :: { slides.getD idx.toNat dummyRich with
             id := newId,
             slide_number := (slides.length : Int) + 1,
             elements := markCopy (slides.getD idx.toNat dummyRich).elements }
      :: slides.drop (idx.toNat + 1)) := by
    cases heq
    rfl
  set i := idx.toNat with hidef
  have hi : i < slides.length := by omega
  have htake : (slides.take i).length = i := by
    simp [List.length_take]
    omega
  have hinslen : (slides.take i
      ++ { slides.getD i dummyRich with
             elements := markCopy (slides.getD i dummyRich).elements }
      :: { slides.getD i dummyRich with
             id := newId,
             slide_number := (slides.length : Int) + 1,
             elements := markCopy (slides.getD i dummyRich).elements }
      :: slides.drop (i + 1)).length = slides.length + 1 := by
    simp [List.length_append, List.length_drop, htake]
    omega
  have hlen2 : slides2.length = slides.length + 1 := by
    rw [hs2, renumber, renumberFrom_length, hinslen]
  have hb : i + 1 < slides.length + 1 := by omega
  have hclone : slides2.getD (i + 1) dummyRich
      = { slides.getD i dummyRich with
            id := newId,
            slide_number := ((i : Int) + 1) + 1,
            elements := markCopy (slides.getD i dummyRich).elements } := by
    rw [hs2, renumber_getD _ _ _ (by rw [hinslen]; omega)]
    have hget : (slides.take i
        ++ { slides.getD i dummyRich with
               elements := markCopy (slides.getD i dummyRich).elements }
        :: { slides.getD i dummyRich with
               id := newId,
               slide_number := (slides.length : Int) + 1,
               elements := markCopy (slides.getD i dummyRich).elements }
        :: slides.drop (i + 1)).getD (i + 1) dummyRich
        = { slides.getD i dummyRich with
              id := newId,
              slide_number := (slides.length : Int) + 1,
              elements := markCopy (slides.getD i dummyRich).elements } := by
      rw [getD_of_lt _ _ _ (by rw [hinslen]; omega)]
      rw [List.getElem_append_right (by rw [htake]; omega)]
      simp [htake]
    rw [hget]
    push_cast
    ring_nf
  refine ⟨hlen2, ?_, ?_, ?_, ?_, ?_⟩
  · rw [hclone]
  · intro s hs contra
    rw [hclone] at contra
    exact hfresh (List.mem_map.mpr ⟨s, hs, contra.symm⟩)
  · rw [hclone]
    simp [markCopy]
  · intro j hj
    rw [hclone]
    have hmark : (markCopy (slides.getD i dummyRich).elements).getD j dummyElem
        = markElement ((slides.getD i dummyRich).elements.getD j dummyElem) := by
      rw [getD_of_lt _ _ _ (by simpa [markCopy] using hj), getD_of_lt _ _ _ hj]
      simp [markCopy]
    simp only [hmark]
    exact ⟨(markElement_spec _).1, (markElement_spec _).2.1,
           (markElement_spec _).2.2.1, (markElement_spec _).2.2.2⟩
  · intro j hj
    rw [hs2, renumber_getD _ _ _ (by rw [hinslen]; omega)]

/-- C3 (witness). -/
theorem copy_inserts_marked_clone_witness :
    [demoMarked, demoClone].length = [demoDeckSlide].length + 1 ∧
    ([demoMarked, demoClone].getD 1 dummyRich).id = "slide_99_fresh" := by
  have h := copy_inserts_marked_clone [demoDeckSlide] 0 "slide_99_fresh"
      [demoMarked, demoClone] "Slide copied successfully"
      (by decide) (by decide) (by decide) (by rfl)
  exact ⟨h.1, h.2.1⟩

/-- C5: a delete that would leave zero slides (a deck of at most one slide)
is refused with a 400 validation error, and after every successful copy or
delete the deck still holds at least one slide and the slide_number fields
are exactly 1..N in array order, with no gaps. -/
theorem slide_ops_min_one_and_numbering (op : String) (idx : Int) (newId : String)
    (slides slides2 : List RichSlide) (msg : String) :
    (applySlideOp op idx newId slides = .ok slides2 msg →
       1 ≤ slides2.length ∧
       ∀ j, j < slides2.length →
         (slides2.getD j dummyRich).slide_number = (j : Int) + 1) ∧
    (slides.length ≤ 1 →
       (applySlideOp "delete" idx newId slides).errStatus? = some 400) := by
  constructor
  · intro heq
    unfold applySlideOp at heq
    split at heq
    · cases heq
    · rename_i hcond
      have hi : idx.toNat < slides.length := by omega
      split at heq
      · cases heq
        constructor
        · rw [renumber, renumberFrom_length]
          simp [List.length_append, List.length_take, List.length_drop]
          omega
        · intro j hj
          unfold renumber at hj
          rw [renumberFrom_length] at hj
          rw [renumber_getD _ _ _ hj]
      · split at heq
        · split at heq
          · cases heq
          · cases heq
            have herase : (slides.eraseIdx idx.toNat).length = slides.length - 1 :=
              List.length_eraseIdx_of_lt hi
            constructor
            · rw [renumber, renumberFrom_length, herase]
              omega
            · intro j hj
              have hjlen : j < (slides.eraseIdx idx.toNat).length := by
                rw [renumber, renumberFrom_length] at hj
                exact hj
              rw [renumber_getD _ _ _ hjlen]
        · cases heq
  · intro hle
    unfold applySlideOp
    split
    · rfl
    · rename_i hcond
      simp [hle, OpOutcome.errStatus?]

/-- C5 (witness). -/
theorem slide_ops_min_one_and_numbering_witness :
    1 ≤ [demoMarked, demoClone].length ∧
    (applySlideOp "delete" 0 "unused" [demoDeckSlide]).errStatus? = some 400 := by
  have h1 := slide_ops_min_one_and_numbering "copy" 0 "slide_99_fresh"
      [demoDeckSlide] [demoMarked, demoClone] "Slide copied successfully"
  have h2 := slide_ops_min_one_and_numbering "delete" 0 "unused"
      [demoDeckSlide] [] ""
  exact ⟨(h1.1 (by rfl)).1, h2.2 (by decide)⟩

/-- C6: a copy or delete request with an out-of-range index, and a delete on
a single-slide deck, answer a 400 validation error and leave the whole
presentation state — the slides array, updated_at and the stored JSON file —
exactly as it was. -/
theorem invalid_slide_ops_leave_state_unchanged (op : String) (idx : Int)
    (newId now : String) (writeOk : Bool) (st : PresState) :
    ((idx < 0 ∨ (st.slides.length : Int) ≤ idx) →
       (slideOperationsEndpoint op idx newId now writeOk st).1.1 = 400 ∧
       (slideOperationsEndpoint op idx newId now writeOk st).2 = st) ∧
    (op = "delete" → st.slides.length = 1 →
       (slideOperationsEndpoint op idx newId now writeOk st).1.1 = 400 ∧
       (slideOperationsEndpoint op idx newId now writeOk st).2 = st) := by
  constructor
  · intro hcond
    simp [slideOperationsEndpoint, applySlideOp, if_pos hcond]
  · intro hop hlen
    subst hop
    by_cases hcond : idx < 0 ∨ (st.slides.length : Int) ≤ idx
    · simp [slideOperationsEndpoint, applySlideOp, if_pos hcond]
    · have hle : st.slides.length ≤ 1 := by omega
      simp [slideOperationsEndpoint, applySlideOp, hcond, hle]

/-- C6 (witness). -/
theorem invalid_slide_ops_leave_state_unchanged_witness :
    (slideOperationsEndpoint "delete" 0 "fresh" "now" true demoPresState).1.1 = 400 ∧
    (slideOperationsEndpoint "delete" 0 "fresh" "now" true demoPresState).2
      = demoPresState := by
  exact (invalid_slide_ops_leave_state_unchanged "delete" 0 "fresh" "now" true
      demoPresState).2 rfl rfl

/-- C8 (counterexample): delete_presentation answers 200 success for an id
that exists nowhere, not the 404 the claim requires of it. -/
theorem delete_unknown_id_returns_success :
    (deletePresentationResult emptyServer "missing").1 = 200 ∧
    ((deletePresentationResult emptyServer "missing").1 = 404) = False :=
  ⟨rfl, eq_false (by decide)⟩

/-- C8 (amended): for an id absent from the in-memory map and with neither a
presentation JSON file nor a structure JSON file on disk, the four endpoints
that look a presentation up — get_presentation_json, update_slide,
export_ppt and slide_operations — answer 404; delete_presentation does not
belong in that list, since it answers 200 success regardless of the id. -/
theorem unknown_id_gets_404 (srv : Server) (id format op : String) (idx : Int)
    (newId now : String) (writeOk writeOk2 : Bool)
    (h1 : srv.db.lookup id = none) (h2 : srv.presFiles.lookup id = none)
    (h3 : id ∉ srv.structFiles) (hop : op ≠ "") :
    getPresentationJsonStatus srv id = 404 ∧
    updateSlideStatus srv id writeOk = 404 ∧
    exportPptStatus srv id format = 404 ∧
    slideOperationsStatus srv id op idx newId now writeOk2 = 404 := by
  refine ⟨?_, ?_, ?_, ?_⟩
  · simp [getPresentationJsonStatus, h1, h2, h3]
  · simp [updateSlideStatus, loadPresentation, h1, h2]
  · simp [exportPptStatus, loadPresentation, h1, h2]
  · simp [slideOperationsStatus, loadPresentation, h1, h2, hop]

/-- C8 (witness for the amended theorem). -/
theorem unknown_id_gets_404_witness :
    getPresentationJsonStatus demoServer "nope" = 404 ∧
    slideOperationsStatus demoServer "nope" "copy" 0 "fresh" "now" true = 404 := by
  have h := unknown_id_gets_404 demoServer "nope" "pptx" "copy" 0 "fresh" "now"
      true true (by rfl) (by rfl) (by decide) (by decide)
  exact ⟨h.1, h.2.2.2⟩

theorem bulletScanAux_fst (ps : List String) (isB : Bool) (acc : List String) :
    (bulletScanAux ps isB acc).1
      = (isB || ps.any (fun p => pyStrip p != "" && bulletMarker (pyStrip p))) := by
  induction ps generalizing isB acc with
  | nil => simp [bulletScanAux]
  | cons p ps ih =>
    simp only [bulletScanAux, List.any_cons]
    by_cases h1 : pyStrip p = ""
    · simp [h1, ih]
    · by_cases h2 : bulletMarker (pyStrip p)
      · simp [h1, h2, ih]
      · by_cases h3 : isB
        · simp [h1, h2, h3, ih]
        · simp [h1, h2, h3, ih]

theorem bulletScanAux_snd_ne (ps : List String) (isB : Bool) (acc : List String)
    (hinv : isB = true → acc ≠ []) :
    (bulletScanAux ps isB acc).1 = true → (bulletScanAux ps isB acc).2 ≠ [] := by
  induction ps generalizing isB acc with
  | nil =>
    intro h
    exact hinv h
  | cons p ps ih =>
    simp only [bulletScanAux]
    by_cases h1 : pyStrip p = ""
    · simp only [h1, if_pos rfl]
      exact ih isB acc hinv
    · rw [if_neg h1]
      by_cases h2 : bulletMarker (pyStrip p)
      · rw [if_pos h2]
        exact ih true (acc ++ [stripBullet (pyStrip p)]) (fun _ => by simp)
      · rw [if_neg h2]
        by_cases h3 : isB
        · rw [if_pos h3]
          exact ih isB (acc ++ [pyStrip p]) (fun _ => by simp)
        · rw [if_neg h3]
          exact ih isB acc hinv

theorem extractFrom_length (k : Nat) (doc : List PSlide) :
    (extractFrom k doc).length = doc.length := by
  induction doc generalizing k with
  | nil => rfl
  | cons s ss ih => simp [extractFrom, ih]

theorem extractFrom_getD (k : Nat) (doc : List PSlide) (j : Nat)
    (h : j < doc.length) :
    (extractFrom k doc).getD j dummyRich = richOf (k + j) (doc.getD j dummyPSlide) := by
  induction doc generalizing k j with
  | nil => simp at h
  | cons s ss ih =>
    cases j with
    | zero => simp [extractFrom]
    | succ j2 =>
      have hj : j2 < ss.length := by simpa using h
      simp only [extractFrom, List.getD_cons_succ]
      rw [ih (k + 1) j2 hj]
      congr 1
      omega

/-- C9 (counterexample): a shape whose first non-empty line "Hello" carries
no bullet marker while a later line does is nevertheless classified
bullet_list by the extractor. -/
theorem bullet_classification_uses_any_line :
    ((extract_ppt_to_json [{ bgColor := none, shapes := [mixedShape] }]).getD 0
        dummyRich).elements.map Element.typ = ["bullet_list"] ∧
    (mixedShape.paragraphs.filter (fun p => pyStrip p != "")).head? = some "Hello" ∧
    bulletMarker (pyStrip "Hello") = false := by
  exact ⟨rfl, rfl, rfl⟩

/-- C9 (amended): during extraction a non-picture shape with non-blank text
is classified bullet_list exactly when SOME of its non-empty lines starts
with a bullet marker character (not only the first one, as the claim
states); otherwise it is classified title exactly when its vertical position
is under the threshold (3 inches on the first slide, 2 inches on later
slides) and text otherwise; and slide index 0 is tagged layout_type "title"
while every other slide is tagged "content". -/
theorem shape_classification (slideIdx : Nat) (sh : Shape)
    (doc : List PSlide) (j : Nat)
    (hsh : sh.isPicture = false) (hne : pyStrip sh.text ≠ "") :
    ((sh.paragraphs.any (fun p => pyStrip p != "" && bulletMarker (pyStrip p))) = true →
       (shapeElements slideIdx sh).map Element.typ = ["bullet_list"]) ∧
    ((sh.paragraphs.any (fun p => pyStrip p != "" && bulletMarker (pyStrip p))) = false →
       (shapeElements slideIdx sh).map Element.typ
         = [if (slideIdx = 0 ∧ sh.top < 3) ∨ (0 < slideIdx ∧ sh.top < 2)
            then "title" else "text"]) ∧
    (j < doc.length →
       ((extract_ppt_to_json doc).getD j dummyRich).layout_type
         = if j = 0 then "title" else "content") := by
  refine ⟨?_, ?_, ?_⟩
  · intro hany
    have hfst : (bulletScan sh.paragraphs).1 = true := by
      rw [bulletScan, bulletScanAux_fst]
      simp [hany]
    have hsnd : (bulletScan sh.paragraphs).2 ≠ [] :=
      bulletScanAux_snd_ne sh.paragraphs false [] (by simp) hfst
    simp [shapeElements, hsh, hne, hfst, hsnd]
  · intro hany
    have hfst : (bulletScan sh.paragraphs).1 = false := by
      rw [bulletScan, bulletScanAux_fst]
      simp [hany]
    simp [shapeElements, hsh, hne, hfst]
  · intro hj
    rw [extract_ppt_to_json, extractFrom_getD 0 doc j hj]
    simp [richOf]

/-- C9 (witness for the amended theorem). -/
theorem shape_classification_witness :
    (plainShape.paragraphs.any (fun p => pyStrip p != "" && bulletMarker (pyStrip p))) = false ∧
    (shapeElements 1 plainShape).map Element.typ
      = [if ((1 : Nat) = 0 ∧ plainShape.top < 3) ∨ (0 < (1 : Nat) ∧ plainShape.top < 2)
         then "title" else "text"] := by
  have h := shape_classification 1 plainShape [{ bgColor := none, shapes := [plainShape] }]
      0 (by rfl) (by decide)
  exact ⟨by decide, h.2.1 (by decide)⟩

theorem bulletScanAux_no_marker (ps : List String) (acc : List String)
    (h : ∀ p ∈ ps, bulletMarker (pyStrip p) = false) :
    bulletScanAux ps false acc = (false, acc) := by
  induction ps generalizing acc with
  | nil => rfl
  | cons p ps ih =>
    have hp := h p (by simp)
    have hrest : ∀ q ∈ ps, bulletMarker (pyStrip q) = false :=
      fun q hq => h q (by simp [hq])
    simp only [bulletScanAux]
    by_cases h1 : pyStrip p = ""
    · rw [if_pos h1]
      exact ih _ hrest
    · rw [if_neg h1, if_neg (by simp [hp]), if_neg (by simp)]
      exact ih _ hrest

theorem shapeElements_auto (idx : Nat) (l t w h : ℚ) :
    shapeElements idx (autoShapeR l t w h) = [] := rfl

theorem shapeElements_picture_none (idx : Nat) (l t w h : ℚ) :
    shapeElements idx (pictureShape l t w h none) = [] := rfl

theorem shapeElements_picture_some (idx : Nat) (l t w h : ℚ) (x : String) :
    shapeElements idx (pictureShape l t w h (some x))
      = [{ typ := "image", src := some x, position := ⟨l, t, w, h⟩ }] := rfl

/-- The content-slide title textbox parses back to a single title element
carrying the record's title, provided the title is its own strip, non-empty
and free of bullet-marker lines. -/
theorem shapeElements_titleBox (idx : Nat) (hidx : 0 < idx) (r : SlideRecord)
    (ht : pyStrip r.title = r.title) (hne : r.title ≠ "")
    (hb : ∀ p ∈ splitLines r.title, bulletMarker (pyStrip p) = false) :
    shapeElements idx (textBoxRaw 0.8 0.6 11.73 0.7 r.title)
      = [{ typ := "title", content := some r.title, items := none,
           position := ⟨0.8, 0.6, 11.73, 0.7⟩, src := none }] := by
  have hscan : bulletScan (splitLines r.title) = (false, []) := by
    rw [bulletScan]
    exact bulletScanAux_no_marker (splitLines r.title) [] hb
  have hidx0 : ¬ (idx = 0) := by omega
  have hq2 : (0.6 : ℚ) < 2 := by norm_num
  simp [shapeElements, textBoxRaw, hscan, ht, hne, hidx, hidx0, hq2]

theorem contentSlidesFrom_length (rs : List SlideRecord)
    (ps : List (Option (Option String))) :
    (contentSlidesFrom rs ps).length = rs.length := by
  induction rs generalizing ps with
  | nil => rfl
  | cons r rs ih => simp [contentSlidesFrom, ih]

theorem contentSlidesFrom_getD (rs : List SlideRecord)
    (ps : List (Option (Option String))) (j : Nat) (h : j < rs.length) :
    ∃ pic, (contentSlidesFrom rs ps).getD j dummyPSlide
        = contentSlideShapes (rs.getD j dummySlideRecord) pic := by
  induction rs generalizing ps j with
  | nil => simp at h
  | cons r rs ih =>
    cases j with
    | zero => exact ⟨ps.headD none, rfl⟩
    | succ j2 =>
      have hj : j2 < rs.length := by simpa using h
      simpa [contentSlidesFrom, List.getD_cons_succ] using ih ps.tail j2 hj

/-- Parsing one rendered content slide: the first text element is the title
element carrying the record's title. -/
theorem content_slide_first_text (idx : Nat) (hidx : 0 < idx) (r : SlideRecord)
    (pic : Option (Option String))
    (ht : pyStrip r.title = r.title) (hne : r.title ≠ "")
    (hb : ∀ p ∈ splitLines r.title, bulletMarker (pyStrip p) = false) :
    firstTextElement (richOf idx (contentSlideShapes r pic))
      = some { typ := "title", content := some r.title, items := none,
               position := ⟨0.8, 0.6, 11.73, 0.7⟩, src := none } := by
  have htb := shapeElements_titleBox idx hidx r ht hne hb
  have hpred : ((("title" : String) != "image")) = true := by decide
  rcases pic with _ | d
  · simp [firstTextElement, richOf, contentSlideShapes, shapeElements_auto, htb,
          List.find?, hpred]
  · rcases d with _ | x
    · simp [firstTextElement, richOf, contentSlideShapes, shapeElements_auto, htb,
            shapeElements_picture_none, List.find?, hpred]
    · simp [firstTextElement, richOf, contentSlideShapes, shapeElements_auto, htb,
            shapeElements_picture_some, List.find?, hpred]

/-- C4: rendering a basic slide list and parsing the document back yields
one parsed slide per record plus the title slide and the fixed thank-you
slide (n+2 in total), and, for every record whose title is a non-empty
stripped string without bullet-marker lines, that record's title is the
first text element of the corresponding parsed slide. -/
theorem render_parse_roundtrip (slides_data : List SlideRecord)
    (topic monthYear : String) (pics : List (Option (Option String)))
    (h : ∀ r ∈ slides_data, pyStrip r.title = r.title ∧ r.title ≠ "" ∧
          ∀ p ∈ splitLines r.title, bulletMarker (pyStrip p) = false) :
    (extract_ppt_to_json (create_powerpoint slides_data topic monthYear pics)).length
        = slides_data.length + 2 ∧
    ∀ i, i < slides_data.length →
      firstTextElement
          ((extract_ppt_to_json (create_powerpoint slides_data topic monthYear pics)).getD
            (i + 1) dummyRich)
        = some { typ := "title",
                 content := some ((slides_data.getD i dummySlideRecord).title),
                 items := none, position := ⟨0.8, 0.6, 11.73, 0.7⟩, src := none } := by
  have hdoclen : (create_powerpoint slides_data topic monthYear pics).length
      = slides_data.length + 2 := by
    simp [create_powerpoint, contentSlidesFrom_length]
  constructor
  · rw [extract_ppt_to_json, extractFrom_length, hdoclen]
  · intro i hi
    have hb2 : i + 1 < (create_powerpoint slides_data topic monthYear pics).length := by
      omega
    rw [extract_ppt_to_json, extractFrom_getD 0 _ _ hb2]
    have hget : (create_powerpoint slides_data topic monthYear pics).getD (i + 1) dummyPSlide
        = (contentSlidesFrom slides_data pics).getD i dummyPSlide := by
      rw [create_powerpoint, List.getD_cons_succ]
      rw [getD_of_lt _ _ _ (by simp [contentSlidesFrom_length]; omega)]
      rw [List.getElem_append_left (by rw [contentSlidesFrom_length]; exact hi)]
      rw [getD_of_lt _ _ _ (by rw [contentSlidesFrom_length]; exact hi)]
    rw [hget]
    obtain ⟨pic, hpic⟩ := contentSlidesFrom_getD slides_data pics i hi
    rw [hpic]
    have hzero : 0 + (i + 1) = i + 1 := by omega
    rw [hzero]
    have hmem : slides_data.getD i dummySlideRecord ∈ slides_data := by
      rw [getD_of_lt _ _ _ hi]
      exact List.getElem_mem hi
    obtain ⟨ht, hne, hb⟩ := h _ hmem
    exact content_slide_first_text (i + 1) (Nat.succ_pos i) _ pic ht hne hb

/-- C4 (witness). -/
theorem render_parse_roundtrip_witness :
    (extract_ppt_to_json (create_powerpoint [wRecord] "T" "June 2024" [])).length = 3 ∧
    firstTextElement
        ((extract_ppt_to_json (create_powerpoint [wRecord] "T" "June 2024" [])).getD 1
          dummyRich)
      = some { typ := "title", content := some ("Alpha"), items := none,
               position := ⟨0.8, 0.6, 11.73, 0.7⟩, src := none } := by
  have h := render_parse_roundtrip [wRecord] "T" "June 2024" [] (by decide)
  exact ⟨h.1, h.2 0 (by decide)⟩

/-- C10 (witness): a client with 30 recorded in-window requests is refused
and its history is left at the pruned old history. -/
theorem rate_limit_admission_witness :
    (rate_limit_check thirtyStamps 0).1 = false ∧
    (rate_limit_check thirtyStamps 0).2
      = thirtyStamps.filter (fun t => decide ((0 : ℚ) - t < 60)) := by
  have hfilter : thirtyStamps.filter (fun t => decide ((0 : ℚ) - t < 60))
      = thirtyStamps := by
    apply List.filter_eq_self.mpr
    intro a ha
    have ha0 : a = 0 := List.eq_of_mem_replicate ha
    subst ha0
    rw [decide_eq_true_eq]
    norm_num
  have hlen : 30 ≤ (thirtyStamps.filter (fun t => decide ((0 : ℚ) - t < 60))).length := by
    rw [hfilter]
    simp [thirtyStamps]
  have h1 : (rate_limit_check thirtyStamps 0).1 = false := by
    simp only [rate_limit_check]
    rw [if_pos hlen]
  exact ⟨h1, (rate_limit_admission thirtyStamps 0).2 h1⟩
